import Mathlib

/-!
Verification development for the gapi-mcp server (`src/server.py`): a shallow
embedding of its credential lifecycle (`_save_creds`, `_load_creds`), its error
adapter (`_api_error_handler`), and the read-modify-write tool operations
(`modify_event`, `update_task`, `delete_event`), together with theorems settling
the specification's claims about them.
-/

namespace GapiMcp

/-- `SCOPES` (server.py lines 23-27): the three OAuth scopes the server requests. -/
def SCOPES : List String :=
  ["https://www.googleapis.com/auth/calendar",
   "https://www.googleapis.com/auth/calendar.events",
   "https://www.googleapis.com/auth/tasks"]

/-- Python `d.get(k)` on a JSON-object field: the outer `Option` is key
presence, the inner `Option` is a JSON `null` value. An absent key yields
`None`. -/
def pyGet {α : Type} (field : Option (Option α)) : Option α := field.getD none

/-- Python `d.get(k, default)`: the default is used only when the key is
absent; a key present with a `null` value yields `None`, not the default. -/
def pyGetD {α : Type} (field : Option (Option α)) (default : Option α) : Option α :=
  field.getD default

/-- `google.oauth2.credentials.Credentials`, restricted to the fields
server.py reads and writes. `expiry` is a UTC timestamp (modelled as an
integer number of seconds); `none` means no expiry is set. -/
structure Credentials where
  token : Option String
  refresh_token : Option String
  token_uri : Option String
  client_id : Option String
  client_secret : Option String
  scopes : Option (List String)
  expiry : Option Int
  deriving Repr, DecidableEq

/-- The on-disk JSON object of `credentials.json`, keyed as server.py
reads/writes it. Each field's outer `Option` is presence of the key, the
inner `Option` a possible JSON `null`. `expiry` is stored as the string
`creds.expiry.isoformat()`. -/
structure CredsFile where
  token : Option (Option String)
  refresh_token : Option (Option String)
  token_uri : Option (Option String)
  client_id : Option (Option String)
  client_secret : Option (Option String)
  scopes : Option (Option (List String))
  expiry : Option (Option String)
  deriving Repr, DecidableEq

/-- Stands for `datetime.isoformat()` on the expiry timestamp: an injective
rendering into a string. The exact text never matters to any claim because
`_load_creds` never reads the `expiry` key back. -/
def isoformat (t : Int) : String := toString t

/-- Python `creds.scopes or SCOPES` (server.py line 42): `or` takes the
default when the left side is falsy, i.e. `None` or the empty list. -/
def scopesOrDefault (s : Option (List String)) : List String :=
  match s with
  | none => SCOPES
  | some [] => SCOPES
  | some l => l

/-- `_save_creds` (server.py lines 34-46): the JSON object written to
`credentials.json`. All keys are always written except `expiry`, written only
when `creds.expiry` is set (a `datetime` is always truthy). -/
def _save_creds (creds : Credentials) : CredsFile :=
  { token := some creds.token
    refresh_token := some creds.refresh_token
    token_uri := some creds.token_uri
    client_id := some creds.client_id
    client_secret := some creds.client_secret
    scopes := some (some (scopesOrDefault creds.scopes))
    expiry :=
      match creds.expiry with
      | some t => some (some (isoformat t))
      | none => none }

/-- The `Credentials(...)` construction of `_load_creds` (server.py lines
55-62): each field read with `data.get`, `token_uri` and `scopes` with
defaults. No `expiry` argument is passed to the constructor, so the built
credential carries no expiry. -/
def credentialsOfData (data : CredsFile) : Credentials :=
  { token := pyGet data.token
    refresh_token := pyGet data.refresh_token
    token_uri := pyGetD data.token_uri (some "https://oauth2.googleapis.com/token")
    client_id := pyGet data.client_id
    client_secret := pyGet data.client_secret
    scopes := pyGetD data.scopes (some SCOPES)
    expiry := none }

/-- google-auth's `Credentials.expired` property: `False` whenever no expiry
is set, else a comparison of the current time against the expiry. (The
library subtracts a small clock-skew threshold before comparing; that
constant is immaterial to every theorem below because credentials built by
`credentialsOfData` carry no expiry at all.) -/
def expiredAt (now : Int) (c : Credentials) : Bool :=
  match c.expiry with
  | none => false
  | some e => decide (e ≤ now)

/-- google-auth's `Credentials.valid` property: a token is present and the
credential is not expired. -/
def validAt (now : Int) (c : Credentials) : Bool :=
  c.token.isSome && !(expiredAt now c)

/-- State of `credentials.json` on disk: absent, present but rejected by
`json.loads` (or not a JSON object), or parsed to a well-typed object. -/
inductive DiskFile
  | absent
  | malformed
  | wellFormed (data : CredsFile)
  deriving Repr, DecidableEq

/-- The environment a single `_load_creds` call runs in: the disk state,
whether `client_secret.json` exists, the current time, what the token
endpoint would answer to a refresh (`none` = the refresh call raises), and
the credential the interactive OAuth flow would produce. -/
structure AuthEnv where
  disk : DiskFile
  clientSecretExists : Bool
  now : Int
  refreshOutcome : Option (String × Option Int)
  flowOutcome : Credentials
  deriving Repr, DecidableEq

/-- How a `_load_creds` call fails: the propagated `json.JSONDecodeError`
(the spec's `CorruptStoreError`), a raising `creds.refresh` (the spec's
`refresh_failed`), or the `RuntimeError` for a missing `client_secret.json`
(the spec's `client_secret_missing`). -/
inductive AuthError
  | corruptStore
  | refreshFailed
  | clientSecretMissing
  deriving Repr, DecidableEq

/-- Observable side effects of one `_load_creds` call: how many token-refresh
exchanges ran, how many interactive OAuth flows ran, and every credential
passed to `_save_creds`, in order. -/
structure AuthTrace where
  refreshCalls : Nat
  flowRuns : Nat
  saves : List Credentials
  deriving Repr, DecidableEq

/-- The trace of a call that performed no side effect. -/
def emptyTrace : AuthTrace := { refreshCalls := 0, flowRuns := 0, saves := [] }

/-- `creds.refresh(Request())` on success: the token endpoint returns a fresh
access token and expiry; the other fields are kept. -/
def refreshedCreds (c : Credentials) (tok : String) (e : Option Int) : Credentials :=
  { c with token := some tok, expiry := e }

/-- Lines 68-73 of server.py: `if not CLIENT_SECRET.exists(): raise
RuntimeError(...)`, else run `InstalledAppFlow...run_local_server` and
`_save_creds` its result. -/
def runOAuthFlow (env : AuthEnv) (tr : AuthTrace) :
    AuthTrace × Except AuthError Credentials :=
  if env.clientSecretExists then
    ({ tr with flowRuns := tr.flowRuns + 1, saves := tr.saves ++ [env.flowOutcome] },
      Except.ok env.flowOutcome)
  else (tr, Except.error AuthError.clientSecretMissing)

/-- Lines 68-75 of server.py: `if not creds or not creds.valid:` run the
interactive flow, else `return creds`. Here `creds` is known non-`None`. -/
def returnOrReauth (env : AuthEnv) (tr : AuthTrace) (creds : Credentials) :
    AuthTrace × Except AuthError Credentials :=
  if validAt env.now creds then (tr, Except.ok creds)
  else runOAuthFlow env tr

/-- `_load_creds` (server.py lines 49-75), with its side effects recorded in
an `AuthTrace`: read `credentials.json` if it exists (a malformed file makes
`json.loads` raise, which propagates), refresh-and-save when the loaded
credential is expired and has a refresh token, and fall back to the
interactive flow when there is no valid credential. -/
def _load_creds (env : AuthEnv) : AuthTrace × Except AuthError Credentials :=
  match env.disk with
  | DiskFile.malformed => (emptyTrace, Except.error AuthError.corruptStore)
  | DiskFile.absent => runOAuthFlow env emptyTrace
  | DiskFile.wellFormed data =>
    let creds := credentialsOfData data
    if expiredAt env.now creds && creds.refresh_token.isSome then
      match env.refreshOutcome with
      | none => ({ emptyTrace with refreshCalls := 1 }, Except.error AuthError.refreshFailed)
      | some (tok, e) =>
        let creds2 := refreshedCreds creds tok e
        returnOrReauth env { refreshCalls := 1, flowRuns := 0, saves := [creds2] } creds2
    else
      returnOrReauth env emptyTrace creds

/-- The faults a tool body can raise: `googleapiclient.errors.HttpError`
(carrying the response status and the service-provided reason string), or any
other Python exception, carrying its string description `str(e)`. -/
inductive Fault
  | httpError (status : Nat) (reason : String)
  | exc (description : String)
  deriving Repr, DecidableEq

/-- `_api_error_handler` (server.py lines 89-99): the wrapped tool either
returns its text, or — when the body raises — the adapter returns
`"Google API error {status}: {reason}"` for an `HttpError` and
`"Error: {e}"` for any other exception. The wrapper is a total function into
`String`, so no fault ever propagates past the tool boundary. -/
def _api_error_handler {α : Type} (func : α → Except Fault String) (a : α) : String :=
  match func a with
  | Except.ok s => s
  | Except.error (Fault.httpError status reason) =>
      "Google API error " ++ toString status ++ ": " ++ reason
  | Except.error (Fault.exc e) => "Error: " ++ e

/-- `delete_event` (server.py lines 313-323), over an abstract remote
collaborator `remoteDelete calendarId eventId` standing for
`_calendar().events().delete(...).execute()`. -/
def delete_event (remoteDelete : String → String → Except Fault Unit)
    (event_id : String) (calendar_id : String) : Except Fault String :=
  match remoteDelete calendar_id event_id with
  | Except.ok _ => Except.ok ("Event " ++ event_id ++ " deleted.")
  | Except.error e => Except.error e

/-- A calendar event's `start`/`end` value: either `{"date": d}` or
`{"dateTime": dt}` with an optional `"timeZone"` key. -/
inductive EventTime
  | date (d : String)
  | dateTime (dt : String) (timeZone : Option String)
  deriving Repr, DecidableEq

/-- A remote calendar event, restricted to the keys `modify_event` touches;
`rest` stands for every other key-value pair of the fetched resource
(id, htmlLink, organizer, ...), which the code never assigns to.
(`end` is a Lean keyword, hence the field name `end_`.) -/
structure Event where
  summary : Option String
  description : Option String
  location : Option String
  attendees : Option (List String)
  start : Option EventTime
  end_ : Option EventTime
  rest : List (String × String)
  deriving Repr, DecidableEq

/-- Python truthiness of `timezone` in `if timezone:` (server.py lines 298,
306): `None` and the empty string are falsy. -/
def truthyStr (s : Option String) : Option String :=
  match s with
  | none => none
  | some "" => none
  | some s => some s

/-- The optional parameters of `modify_event` (server.py lines 257-266);
`none` is an omitted argument. -/
structure ModifyEventArgs where
  summary : Option String
  start : Option String
  end_ : Option String
  description : Option String
  location : Option String
  attendees : Option (List String)
  timezone : Option String
  deriving Repr, DecidableEq

/-- `modify_event`'s body construction (server.py lines 282-308): the fetched
event `ev` with each `is not None` parameter assigned over it; a provided
`start`/`end` of length 10 becomes `{"date": s}`, otherwise
`{"dateTime": s}` plus a `timeZone` key when `timezone` is truthy. The
result is what is passed as `body=` to the update call. -/
def modify_event_body (ev : Event) (args : ModifyEventArgs) : Event :=
  let ev :=
    match args.summary with
    | some s => { ev with summary := some s }
    | none => ev
  let ev :=
    match args.description with
    | some d => { ev with description := some d }
    | none => ev
  let ev :=
    match args.location with
    | some l => { ev with location := some l }
    | none => ev
  let ev :=
    match args.attendees with
    | some a => { ev with attendees := some a }
    | none => ev
  let ev :=
    match args.start with
    | some s =>
      if s.length = 10 then { ev with start := some (EventTime.date s) }
      else { ev with start := some (EventTime.dateTime s (truthyStr args.timezone)) }
    | none => ev
  match args.end_ with
  | some e =>
    if e.length = 10 then { ev with end_ := some (EventTime.date e) }
    else { ev with end_ := some (EventTime.dateTime e (truthyStr args.timezone)) }
  | none => ev

/-- A remote task, restricted to the keys `update_task` touches; `rest`
stands for every other key-value pair of the fetched resource. -/
structure Task where
  title : Option String
  notes : Option String
  status : Option String
  due : Option String
  completed : Option String
  rest : List (String × String)
  deriving Repr, DecidableEq

/-- The optional parameters of `update_task` (server.py lines 481-488);
`none` is an omitted argument. -/
structure UpdateTaskArgs where
  title : Option String
  notes : Option String
  status : Option String
  due : Option String
  deriving Repr, DecidableEq

/-- `update_task`'s body construction (server.py lines 500-513): the fetched
task `t` with each `is not None` parameter assigned over it; a provided
status of `"completed"` additionally sets `completed` to
`datetime.now(timezone.utc).isoformat()` (the `now` argument here), and a
provided status of `"needsAction"` pops the `completed` key. -/
def update_task_body (t : Task) (args : UpdateTaskArgs) (now : String) : Task :=
  let t :=
    match args.title with
    | some s => { t with title := some s }
    | none => t
  let t :=
    match args.notes with
    | some n => { t with notes := some n }
    | none => t
  let t :=
    match args.status with
    | some s =>
      let t2 := { t with status := some s }
      if s = "completed" then { t2 with completed := some now }
      else if s = "needsAction" then { t2 with completed := none }
      else t2
    | none => t
  match args.due with
  | some d => { t with due := some d }
  | none => t

/-- `modify_event` called with every optional parameter omitted. -/
def noModifyArgs : ModifyEventArgs := ⟨none, none, none, none, none, none, none⟩

/-- `update_task` called with every optional parameter omitted. -/
def noUpdateArgs : UpdateTaskArgs := ⟨none, none, none, none⟩

/-- A credential set produced by the interactive flow, used as the
`flowOutcome` of concrete environments below. -/
def someFlowCreds : Credentials :=
  { token := some "flowtok", refresh_token := some "flowref",
    token_uri := some "https://oauth2.googleapis.com/token",
    client_id := some "cid", client_secret := some "sec",
    scopes := some SCOPES, expiry := none }

/-- A full credential set, expiry present, for the save/load round trip. -/
def roundTripInput : Credentials :=
  { token := some "tok", refresh_token := some "ref",
    token_uri := some "https://oauth2.googleapis.com/token",
    client_id := some "cid", client_secret := some "sec",
    scopes := some SCOPES, expiry := some 1750000000 }

/-- A stored credential file whose expiry (time 2000) lies in the future of
the environment below (now = 1000). -/
def futureExpiryFile : CredsFile :=
  { token := some (some "tok"), refresh_token := some (some "ref"),
    token_uri := some (some "https://oauth2.googleapis.com/token"),
    client_id := some (some "cid"), client_secret := some (some "sec"),
    scopes := some (some SCOPES), expiry := some (some (isoformat 2000)) }

/-- Environment for the future-expiry scenario: the file above on disk,
client secret available, a refresh that would succeed if attempted. -/
def futureExpiryEnv : AuthEnv :=
  { disk := DiskFile.wellFormed futureExpiryFile, clientSecretExists := true,
    now := 1000, refreshOutcome := some ("newtok", some 3000),
    flowOutcome := someFlowCreds }

/-- A stored credential file whose expiry (time 100) lies in the past of the
environment below (now = 1000), with a refresh token present. -/
def pastExpiryFile : CredsFile :=
  { token := some (some "tok"), refresh_token := some (some "ref"),
    token_uri := some (some "https://oauth2.googleapis.com/token"),
    client_id := some (some "cid"), client_secret := some (some "sec"),
    scopes := some (some SCOPES), expiry := some (some (isoformat 100)) }

/-- Environment for the past-expiry scenario: the file above on disk, client
secret available, a refresh that would succeed if attempted. -/
def pastExpiryEnv : AuthEnv :=
  { disk := DiskFile.wellFormed pastExpiryFile, clientSecretExists := true,
    now := 1000, refreshOutcome := some ("newtok", some 3000),
    flowOutcome := someFlowCreds }

/-- A stored credential file whose scope list lacks every required scope. -/
def wrongScopesFile : CredsFile :=
  { token := some (some "tok"), refresh_token := some (some "ref"),
    token_uri := some (some "https://oauth2.googleapis.com/token"),
    client_id := some (some "cid"), client_secret := some (some "sec"),
    scopes := some (some ["https://www.googleapis.com/auth/drive"]),
    expiry := none }

/-- Environment for the wrong-scopes scenario. -/
def wrongScopesEnv : AuthEnv :=
  { disk := DiskFile.wellFormed wrongScopesFile, clientSecretExists := true,
    now := 1000, refreshOutcome := none, flowOutcome := someFlowCreds }

/-- Concrete credential file used by the witness of the amended scope claim. -/
def witnessScopesFile : CredsFile :=
  { token := some (some "t"), refresh_token := some none,
    token_uri := some none, client_id := some none, client_secret := some none,
    scopes := some (some ["https://www.googleapis.com/auth/drive"]),
    expiry := none }

/-! ## Helper lemmas about the update bodies -/

/-- The `summary` key of the body `modify_event` writes back. -/
lemma modify_event_body_summary (ev : Event) (a : ModifyEventArgs) :
    (modify_event_body ev a).summary = a.summary.or ev.summary := by
  obtain ⟨s, st, en, d, l, att, tz⟩ := a
  cases s <;> cases st <;> cases en <;> cases d <;> cases l <;> cases att <;>
    simp only [modify_event_body, Option.or] <;> (try split_ifs) <;> rfl

/-- The `description` key of the body `modify_event` writes back. -/
lemma modify_event_body_description (ev : Event) (a : ModifyEventArgs) :
    (modify_event_body ev a).description = a.description.or ev.description := by
  obtain ⟨s, st, en, d, l, att, tz⟩ := a
  cases s <;> cases st <;> cases en <;> cases d <;> cases l <;> cases att <;>
    simp only [modify_event_body, Option.or] <;> (try split_ifs) <;> rfl

/-- The `location` key of the body `modify_event` writes back. -/
lemma modify_event_body_location (ev : Event) (a : ModifyEventArgs) :
    (modify_event_body ev a).location = a.location.or ev.location := by
  obtain ⟨s, st, en, d, l, att, tz⟩ := a
  cases s <;> cases st <;> cases en <;> cases d <;> cases l <;> cases att <;>
    simp only [modify_event_body, Option.or] <;> (try split_ifs) <;> rfl

/-- The `attendees` key of the body `modify_event` writes back. -/
lemma modify_event_body_attendees (ev : Event) (a : ModifyEventArgs) :
    (modify_event_body ev a).attendees = (a.attendees.map some).getD ev.attendees := by
  obtain ⟨s, st, en, d, l, att, tz⟩ := a
  cases s <;> cases st <;> cases en <;> cases d <;> cases l <;> cases att <;>
    simp only [modify_event_body, Option.or] <;> (try split_ifs) <;> rfl

/-- The `start` key of the body `modify_event` writes back. -/
lemma modify_event_body_start (ev : Event) (a : ModifyEventArgs) :
    (modify_event_body ev a).start =
      match a.start with
      | some s =>
        some (if s.length = 10 then EventTime.date s
              else EventTime.dateTime s (truthyStr a.timezone))
      | none => ev.start := by
  obtain ⟨s, st, en, d, l, att, tz⟩ := a
  cases s <;> cases st <;> cases en <;> cases d <;> cases l <;> cases att <;>
    simp only [modify_event_body, Option.or] <;> (try split_ifs) <;> rfl

/-- The `end` key of the body `modify_event` writes back. -/
lemma modify_event_body_end (ev : Event) (a : ModifyEventArgs) :
    (modify_event_body ev a).end_ =
      match a.end_ with
      | some e =>
        some (if e.length = 10 then EventTime.date e
              else EventTime.dateTime e (truthyStr a.timezone))
      | none => ev.end_ := by
  obtain ⟨s, st, en, d, l, att, tz⟩ := a
  cases s <;> cases st <;> cases en <;> cases d <;> cases l <;> cases att <;>
    simp only [modify_event_body, Option.or] <;> (try split_ifs) <;> rfl

/-- Every key `modify_event` does not assign to is written back verbatim. -/
lemma modify_event_body_rest (ev : Event) (a : ModifyEventArgs) :
    (modify_event_body ev a).rest = ev.rest := by
  obtain ⟨s, st, en, d, l, att, tz⟩ := a
  cases s <;> cases st <;> cases en <;> cases d <;> cases l <;> cases att <;>
    simp only [modify_event_body, Option.or] <;> (try split_ifs) <;> rfl

/-- The `title` key of the body `update_task` writes back. -/
lemma update_task_body_title (t : Task) (a : UpdateTaskArgs) (now : String) :
    (update_task_body t a now).title = a.title.or t.title := by
  obtain ⟨tt, tn, ts, td⟩ := a
  cases tt <;> cases tn <;> cases ts <;> cases td <;>
    simp only [update_task_body, Option.or] <;> (try split_ifs) <;> rfl

/-- The `notes` key of the body `update_task` writes back. -/
lemma update_task_body_notes (t : Task) (a : UpdateTaskArgs) (now : String) :
    (update_task_body t a now).notes = a.notes.or t.notes := by
  obtain ⟨tt, tn, ts, td⟩ := a
  cases tt <;> cases tn <;> cases ts <;> cases td <;>
    simp only [update_task_body, Option.or] <;> (try split_ifs) <;> rfl

/-- The `due` key of the body `update_task` writes back. -/
lemma update_task_body_due (t : Task) (a : UpdateTaskArgs) (now : String) :
    (update_task_body t a now).due = a.due.or t.due := by
  obtain ⟨tt, tn, ts, td⟩ := a
  cases tt <;> cases tn <;> cases ts <;> cases td <;>
    simp only [update_task_body, Option.or] <;> (try split_ifs) <;> rfl

/-- The `status` key of the body `update_task` writes back. -/
lemma update_task_body_status (t : Task) (a : UpdateTaskArgs) (now : String) :
    (update_task_body t a now).status = a.status.or t.status := by
  obtain ⟨tt, tn, ts, td⟩ := a
  cases tt <;> cases tn <;> cases ts <;> cases td <;>
    simp only [update_task_body, Option.or] <;> (try split_ifs) <;> rfl

/-- The `completed` key of the body `update_task` writes back. -/
lemma update_task_body_completed (t : Task) (a : UpdateTaskArgs) (now : String) :
    (update_task_body t a now).completed =
      match a.status with
      | none => t.completed
      | some s =>
        if s = "completed" then some now
        else if s = "needsAction" then none
        else t.completed := by
  obtain ⟨tt, tn, ts, td⟩ := a
  cases tt <;> cases tn <;> cases ts <;> cases td <;>
    simp only [update_task_body, Option.or] <;> (try split_ifs) <;> rfl

/-- Every key `update_task` does not assign to is written back verbatim. -/
lemma update_task_body_rest (t : Task) (a : UpdateTaskArgs) (now : String) :
    (update_task_body t a now).rest = t.rest := by
  obtain ⟨tt, tn, ts, td⟩ := a
  cases tt <;> cases tn <;> cases ts <;> cases td <;>
    simp only [update_task_body, Option.or] <;> (try split_ifs) <;> rfl

/-! ## Claim theorems -/

/-- C1: every fault raised inside an error-adapter-wrapped tool operation
comes back as an ordinary text value, never as a propagated exception: an
`HttpError` yields `"Google API error {status}: {reason}"` — so a 404 /
"Not Found" fault during `delete_event` yields a text containing both `404`
and `Not Found` — and any other fault yields `"Error: {description}"`. -/
theorem wrapped_tools_return_error_text (α : Type) (func : α → Except Fault String)
    (a : α) (status : Nat) (reason description : String) :
    (func a = Except.error (Fault.httpError status reason) →
      _api_error_handler func a
        = "Google API error " ++ toString status ++ ": " ++ reason) ∧
    (func a = Except.error (Fault.exc description) →
      _api_error_handler func a = "Error: " ++ description) ∧
    (∀ eid cid : String,
      _api_error_handler
        (fun p : String × String =>
          delete_event (fun _ _ => Except.error (Fault.httpError 404 "Not Found")) p.1 p.2)
        (eid, cid)
      = "Google API error " ++ "404" ++ ": " ++ "Not Found") := by
  refine ⟨fun h => ?_, fun h => ?_, fun eid cid => ?_⟩
  · simp [_api_error_handler, h]
  · simp [_api_error_handler, h]
  · rfl

/-- C2 (the code against the round-trip claim): `_save_creds` writes the
expiry key, but `_load_creds` never passes it back to the `Credentials`
constructor, so a credential set with an expiry does not round-trip: the
loaded set has no expiry and differs from the saved one. -/
theorem save_load_roundtrip_drops_expiry :
    roundTripInput.expiry = some 1750000000 ∧
    (_save_creds roundTripInput).expiry = some (some (isoformat 1750000000)) ∧
    (credentialsOfData (_save_creds roundTripInput)).expiry = none ∧
    credentialsOfData (_save_creds roundTripInput) ≠ roundTripInput := by
  refine ⟨rfl, rfl, rfl, fun h => ?_⟩
  have he := congrArg Credentials.expiry h
  simp [credentialsOfData, _save_creds, roundTripInput] at he

/-- C3 (the code against the future-expiry claim): with a stored credential
whose expiry (2000) is ahead of now (1000), `_load_creds` performs zero
network calls and writes nothing back, but does NOT return the stored set
unchanged: the expiry field is dropped on load. -/
theorem future_expiry_zero_network_but_expiry_dropped :
    _load_creds futureExpiryEnv
      = (emptyTrace, Except.ok (credentialsOfData futureExpiryFile)) ∧
    (credentialsOfData futureExpiryFile).expiry = none ∧
    futureExpiryFile.expiry = some (some (isoformat 2000)) := by
  exact ⟨rfl, rfl, rfl⟩

/-- C4 (the code against the refresh claim): with a stored credential whose
expiry (100) is behind now (1000) and a refresh token present, `_load_creds`
performs no refresh exchange and no save at all — the expiry was dropped on
load, so the loaded credential never looks expired — and returns the stale
set. -/
theorem past_expiry_refreshes_nothing :
    _load_creds pastExpiryEnv
      = (emptyTrace, Except.ok (credentialsOfData pastExpiryFile)) ∧
    (pyGet pastExpiryFile.refresh_token).isSome = true ∧
    pastExpiryFile.expiry = some (some (isoformat 100)) := by
  exact ⟨rfl, rfl, rfl⟩

/-- C5: with no credential file on disk and no `client_secret.json`,
`_load_creds` fails (the `RuntimeError`, the spec's `client_secret_missing`)
with an empty side-effect trace: no refresh exchange and no interactive
flow. -/
theorem absent_store_missing_secret_fails_without_network
    (now : Int) (ro : Option (String × Option Int)) (fo : Credentials) :
    _load_creds { disk := DiskFile.absent, clientSecretExists := false,
                  now := now, refreshOutcome := ro, flowOutcome := fo }
      = (emptyTrace, Except.error AuthError.clientSecretMissing) := rfl

/-- C6 counterexample: a stored credential set whose scope list lacks every
one of the three required scopes is returned by `_load_creds` as-is, with no
re-authorization: the code never validates scopes. -/
theorem scope_superset_counterexample :
    (_load_creds wrongScopesEnv).2 = Except.ok (credentialsOfData wrongScopesFile) ∧
    (credentialsOfData wrongScopesFile).scopes
      = some ["https://www.googleapis.com/auth/drive"] ∧
    ¬ (∀ s ∈ SCOPES, s ∈ ["https://www.googleapis.com/auth/drive"]) ∧
    (_load_creds wrongScopesEnv).1.flowRuns = 0 := by
  refine ⟨rfl, rfl, ?_, rfl⟩
  decide

/-- C6 amended: the Authenticator performs no scope validation. Every
well-formed stored credential set with a token present is returned with its
stored scope list as-is — the three required scopes serve only as the
default when the scopes key is absent — with no network call and no
re-authorization, even when required scopes are missing. -/
theorem loaded_scopes_returned_without_validation
    (data : CredsFile) (secret : Bool) (now : Int)
    (ro : Option (String × Option Int)) (fo : Credentials)
    (h : (pyGet data.token).isSome = true) :
    _load_creds { disk := DiskFile.wellFormed data, clientSecretExists := secret,
                  now := now, refreshOutcome := ro, flowOutcome := fo }
      = (emptyTrace, Except.ok (credentialsOfData data)) ∧
    (credentialsOfData data).scopes = pyGetD data.scopes (some SCOPES) := by
  have hexp : expiredAt now (credentialsOfData data) = false := rfl
  have hval : validAt now (credentialsOfData data) = true := by
    simp [validAt, credentialsOfData, expiredAt]
    exact h
  refine ⟨?_, rfl⟩
  simp [_load_creds, hexp, returnOrReauth, hval]

/-- Witness for the amended scope statement, at a concrete stored file whose
scope list holds only the Drive scope. -/
theorem loaded_scopes_returned_without_validation_witness :
    _load_creds { disk := DiskFile.wellFormed witnessScopesFile,
                  clientSecretExists := false, now := 0,
                  refreshOutcome := none, flowOutcome := someFlowCreds }
      = (emptyTrace, Except.ok (credentialsOfData witnessScopesFile)) ∧
    (credentialsOfData witnessScopesFile).scopes
      = pyGetD witnessScopesFile.scopes (some SCOPES) :=
  loaded_scopes_returned_without_validation witnessScopesFile false 0 none
    someFlowCreds rfl

/-- C7: for both read-modify-write operations, an omitted parameter leaves
the corresponding field of the written-back body exactly as fetched, a
provided parameter overwrites it, untouched keys are written back verbatim,
and a call with every optional parameter omitted writes back a body equal to
the fetched resource. -/
theorem partial_update_frame (ev : Event) (t : Task) (margs : ModifyEventArgs)
    (targs : UpdateTaskArgs) (now : String) :
    modify_event_body ev noModifyArgs = ev ∧
    update_task_body t noUpdateArgs now = t ∧
    (margs.summary = none → (modify_event_body ev margs).summary = ev.summary) ∧
    (margs.description = none →
      (modify_event_body ev margs).description = ev.description) ∧
    (margs.location = none → (modify_event_body ev margs).location = ev.location) ∧
    (margs.attendees = none → (modify_event_body ev margs).attendees = ev.attendees) ∧
    (margs.start = none → (modify_event_body ev margs).start = ev.start) ∧
    (margs.end_ = none → (modify_event_body ev margs).end_ = ev.end_) ∧
    (modify_event_body ev margs).rest = ev.rest ∧
    (∀ s, margs.summary = some s → (modify_event_body ev margs).summary = some s) ∧
    (∀ s, margs.description = some s →
      (modify_event_body ev margs).description = some s) ∧
    (∀ s, margs.location = some s → (modify_event_body ev margs).location = some s) ∧
    (∀ l, margs.attendees = some l → (modify_event_body ev margs).attendees = some l) ∧
    (∀ s, margs.start = some s → (modify_event_body ev margs).start
        = some (if s.length = 10 then EventTime.date s
                else EventTime.dateTime s (truthyStr margs.timezone))) ∧
    (∀ s, margs.end_ = some s → (modify_event_body ev margs).end_
        = some (if s.length = 10 then EventTime.date s
                else EventTime.dateTime s (truthyStr margs.timezone))) ∧
    (targs.title = none → (update_task_body t targs now).title = t.title) ∧
    (targs.notes = none → (update_task_body t targs now).notes = t.notes) ∧
    (targs.due = none → (update_task_body t targs now).due = t.due) ∧
    (targs.status = none → (update_task_body t targs now).status = t.status ∧
        (update_task_body t targs now).completed = t.completed) ∧
    (update_task_body t targs now).rest = t.rest ∧
    (∀ s, targs.title = some s → (update_task_body t targs now).title = some s) ∧
    (∀ s, targs.notes = some s → (update_task_body t targs now).notes = some s) ∧
    (∀ s, targs.due = some s → (update_task_body t targs now).due = some s) ∧
    (∀ s, targs.status = some s → (update_task_body t targs now).status = some s) := by
  refine ⟨by simp [modify_event_body, noModifyArgs],
    by simp [update_task_body, noUpdateArgs],
    ?_, ?_, ?_, ?_, ?_, ?_, ?_, ?_, ?_, ?_, ?_, ?_, ?_, ?_, ?_, ?_, ?_, ?_, ?_,
    ?_, ?_, ?_⟩ <;> intros <;>
    simp_all [modify_event_body_summary, modify_event_body_description,
      modify_event_body_location, modify_event_body_attendees,
      modify_event_body_start, modify_event_body_end, modify_event_body_rest,
      update_task_body_title, update_task_body_notes, update_task_body_due,
      update_task_body_status, update_task_body_completed, update_task_body_rest,
      Option.or]

/-- C8: a credential file that exists but cannot be parsed makes the load
fail with the corrupt-store error (the propagated `json.JSONDecodeError`),
surfaced to the caller, and is never treated as absent: no interactive flow
runs — whereas a genuinely absent file with a client secret available does
start one flow. -/
theorem malformed_store_surfaces_corrupt_error
    (secret : Bool) (now : Int) (ro : Option (String × Option Int)) (fo : Credentials) :
    _load_creds { disk := DiskFile.malformed, clientSecretExists := secret,
                  now := now, refreshOutcome := ro, flowOutcome := fo }
      = (emptyTrace, Except.error AuthError.corruptStore) ∧
    (_load_creds { disk := DiskFile.malformed, clientSecretExists := secret,
                   now := now, refreshOutcome := ro, flowOutcome := fo }).1.flowRuns = 0 ∧
    (_load_creds { disk := DiskFile.absent, clientSecretExists := true,
                   now := now, refreshOutcome := ro, flowOutcome := fo }).1.flowRuns = 1 := by
  exact ⟨rfl, rfl, rfl⟩

/-- C10: in the body `update_task` writes back, a provided status of
`"completed"` stamps the `completed` field with the current UTC time, a
provided `"needsAction"` removes any `completed` field, and an omitted
status leaves both `status` and `completed` exactly as fetched. -/
theorem update_task_status_completed_contract (t : Task) (a : UpdateTaskArgs)
    (now : String) :
    (a.status = some "completed" →
      (update_task_body t a now).status = some "completed" ∧
      (update_task_body t a now).completed = some now) ∧
    (a.status = some "needsAction" →
      (update_task_body t a now).status = some "needsAction" ∧
      (update_task_body t a now).completed = none) ∧
    (a.status = none →
      (update_task_body t a now).status = t.status ∧
      (update_task_body t a now).completed = t.completed) := by
  refine ⟨fun h => ?_, fun h => ?_, fun h => ?_⟩ <;>
    simp_all [update_task_body_status, update_task_body_completed, Option.or]

end GapiMcp
